import Mathlib

/-!
Verification of the TimesheetManager core against its specification.

Shallow embedding notes:
- Calendar dates are represented by their epoch-day number (days since
  1970-01-01, an `Int`); `dayFromCivil`/`civilFromDay` convert between a
  civil (year, month, day) triple and the epoch day, and `formatDate`
  renders the ISO `YYYY-MM-DD` string exactly as `toISOString` does for a
  midnight date.  1970-01-01 was a Thursday, hence weekday `(n + 4) % 7`
  with `0 = SUN … 6 = SAT`, matching the JS `Date.getDay` convention.
- A JS `Date` value (which also carries a time of day) is modelled by
  `JSDate`: an epoch day plus milliseconds past local midnight.
- The string-typed numeric form fields of `DayEntry` (`totalHours`,
  `breakMinutes`, `kilometers`) are modelled by the result of
  `parseFloat`: `none` for the empty or unparseable string, `some q` for a
  string parsing to the (exact, rational) value `q`.  `parseFloat(s) || 0`
  is then `(o.getD 0)`.  The `HH:MM` time fields are modelled by
  `Option (Nat × Nat)` (`none` for the empty string).
- `toFixed2` models `Number.prototype.toFixed(2)` (round to nearest
  hundredth, ties toward plus infinity) and `jsNumToString` models JS
  number-to-string printing for decimal-representable values.
-/

namespace Timesheet

/-! ## Calendar Utility (src/unnamed/part_000, src/unnamed/part_001) -/

/-- The list `ALL_DAY_NAMES` from part_000: index-aligned with `Date.getDay`. -/
def ALL_DAY_NAMES : List String := ["SUN", "MON", "TUE", "WED", "THU", "FRI", "SAT"]

/-- Weekday index of an epoch day, `0 = SUN … 6 = SAT` (JS `getDay`). -/
def weekday (n : Int) : Int := (n + 4) % 7

/-- The function `getDayName` from part_000: `ALL_DAY_NAMES[date.getDay()]`. -/
def getDayName (n : Int) : String := ALL_DAY_NAMES.getD (weekday n).toNat ""

/-- A JS `Date` value: epoch day plus milliseconds past midnight. -/
structure JSDate where
  days : Int
  ms : Nat
deriving DecidableEq

/-- The JS `Date.getDay` method (day of week of the calendar date). -/
def JSDate.getDay (d : JSDate) : Int := weekday d.days

/-- The function `getMonday` from part_000/part_001:
`diff = d.getDate() - day + (day === 0 ? -6 : 1)`, `d.setDate(diff)`,
`d.setHours(0,0,0,0)`.  `setDate(diff)` moves the date by
`diff - d.getDate() = (day === 0 ? -6 : 1) - day` days and `setHours`
zeroes the time of day. -/
def getMonday (date : JSDate) : JSDate :=
  let day := date.getDay
  ⟨date.days + ((if day = 0 then -6 else 1) - day), 0⟩

/-- Epoch day of a civil (year, month, day) date (days_from_civil). -/
def dayFromCivil (year month dayOfMonth : Int) : Int :=
  let y := year - (if month ≤ 2 then 1 else 0)
  let era := y / 400
  let yoe := y - era * 400
  let mp := (month + 9) % 12
  let doy := (153 * mp + 2) / 5 + dayOfMonth - 1
  let doe := yoe * 365 + yoe / 4 - yoe / 100 + doy
  era * 146097 + doe - 719468

/-- Civil (year, month, day) date of an epoch day (civil_from_days). -/
def civilFromDay (n : Int) : Int × Int × Int :=
  let z := n + 719468
  let era := z / 146097
  let doe := z - era * 146097
  let yoe := (doe - doe / 1460 + doe / 36524 - doe / 146096) / 365
  let y := yoe + era * 400
  let doy := doe - (365 * yoe + yoe / 4 - yoe / 100)
  let mp := (5 * doy + 2) / 153
  let d := doy - (153 * mp + 2) / 5 + 1
  let m := mp + (if mp < 10 then 3 else -9)
  (y + (if m ≤ 2 then 1 else 0), m, d)

/-- Zero-pad a month or day-of-month number to two digits. -/
def pad2 (n : Int) : String := (if n < 10 then "0" else "") ++ toString n

/-- Zero-pad a year number to four digits. -/
def pad4 (n : Int) : String :=
  (if n < 10 then "000" else if n < 100 then "00" else if n < 1000 then "0" else "") ++
    toString n

/-- The function `formatDate` from part_000/part_001: render an epoch day as the ISO
`YYYY-MM-DD` string (`date.toISOString().split("T")[0]`). -/
def formatDate (n : Int) : String :=
  let c := civilFromDay n
  pad4 c.1 ++ "-" ++ pad2 c.2.1 ++ "-" ++ pad2 c.2.2

/-! ## Data model (src/unnamed/part_002, lib/types) -/

/-- The interface `DayEntry` from lib/types: one day of the WorkPeriod.  `date` holds the
epoch day denoted by the ISO date string; the optional string fields are
modelled as described in the header. -/
structure DayEntry where
  date : Int
  dayOfWeek : String
  startTime : Option (Nat × Nat)
  endTime : Option (Nat × Nat)
  totalHours : Option ℚ
  breakMinutes : Option ℚ
  kilometers : Option ℚ
  notes : String
deriving DecidableEq

/-! ## Day-Period Generator (src/unnamed/part_000 and part_001) -/

/-- The function `generateWeekDays` from part_000: five consecutive days starting at the
given start date, `dayOfWeek` computed from the date via `getDayName`. -/
def generateWeekDays (start : Int) : List DayEntry :=
  (List.range 5).map (fun i =>
    { date := start + i
      dayOfWeek := getDayName (start + i)
      startTime := none
      endTime := none
      totalHours := none
      breakMinutes := none
      kilometers := none
      notes := "" })

/-- The list `DAY_NAMES` from part_001: the fixed Monday-to-Friday labels. -/
def DAY_NAMES : List String := ["MON", "TUE", "WED", "THU", "FRI"]

/-- The function `generateWeekDays` from part_001: five consecutive days starting at the
given start date, `dayOfWeek` taken from the fixed `DAY_NAMES` labels by
position, independent of the actual weekday of the date. -/
def generateWeekDaysFixed (start : Int) : List DayEntry :=
  DAY_NAMES.enum.map (fun p =>
    { date := start + p.1
      dayOfWeek := p.2
      startTime := none
      endTime := none
      totalHours := none
      breakMinutes := none
      kilometers := none
      notes := "" })

/-! ## Hours Derivation (inlined at src/src/lib/xero.ts lines 11 to 19 and
src/src/app/page.tsx lines 223 to 229; both sites compute exactly this) -/

/-- The shared hours derivation:
`let hours = parseFloat(day.totalHours) || 0;`
`if (!hours && day.startTime && day.endTime) { hours = eh - sh + (em - sm)/60; hours -= (parseFloat(day.breakMinutes) || 0)/60 }`. -/
def deriveHours (day : DayEntry) : ℚ :=
  let hours := day.totalHours.getD 0
  if hours = 0 then
    match day.startTime, day.endTime with
    | some s, some e =>
        (e.1 : ℚ) - (s.1 : ℚ) + ((e.2 : ℚ) - (s.2 : ℚ)) / 60 -
          (day.breakMinutes.getD 0) / 60
    | _, _ => 0
  else hours

/-! ## CSV Exporter (src/src/lib/xero.ts) -/

/-- The JS method `Number.prototype.toFixed(2)`: nearest hundredth, ties toward +infinity,
rendered with exactly two decimals. -/
def toFixed2 (q : ℚ) : String :=
  let n : Int := (q * 100 + 1 / 2).floor
  (if n < 0 then "-" else "") ++ toString (n.natAbs / 100) ++ "." ++
    (if n.natAbs % 100 < 10 then "0" else "") ++ toString (n.natAbs % 100)

/-- Smallest number of decimal digits that writes `q` exactly, if any
(searched up to 20, enough for every value arising from `parseFloat`). -/
def decimalLen (q : ℚ) : Option Nat := (List.range 21).find? (fun k => (q * 10 ^ k).den = 1)

/-- JS number-to-string for a nonnegative decimal-representable value:
the shortest exact decimal form, with no point for integers. -/
def nonnegDecString (q : ℚ) : String :=
  match decimalLen q with
  | some 0 => toString q.num
  | some (k + 1) =>
      let n := (q * 10 ^ (k + 1)).num.natAbs
      let fs := toString (n % 10 ^ (k + 1))
      toString (n / 10 ^ (k + 1)) ++ "." ++
        String.mk (List.replicate (k + 1 - fs.length) '0') ++ fs
  | none => toString q.num ++ "/" ++ toString q.den

/-- JS template-literal printing of a number. -/
def jsNumToString (q : ℚ) : String :=
  (if q < 0 then "-" else "") ++ nonnegDecString |q|

/-- The fixed CSV header row. -/
def csvHeader : String := "Employee Name,Date,Earnings Rate,Units,Notes"

/-- One CSV data row: every field double-quote-wrapped and comma-joined,
the Units field formatted with `toFixed(2)`.  Both `rows.push` template
literals in `generateXeroCSV` have exactly this shape. -/
def csvRow (employeeName : String) (date : Int) (rate : String) (units : ℚ)
    (note : String) : String :=
  "\"" ++ employeeName ++ "\",\"" ++ formatDate date ++ "\",\"" ++ rate ++
    "\",\"" ++ toFixed2 units ++ "\",\"" ++ note ++ "\""

/-- The body of the `for` loop of `generateXeroCSV` (xero.ts lines
10 to 33): push an "Ordinary Hours" row when the derived hours are
positive, then a "Kilometers" row when the kilometers are positive. -/
def xeroPush (employeeName : String) (rows : List String) (day : DayEntry) : List String :=
  let hours := deriveHours day
  let rows := if 0 < hours then
      rows ++ [csvRow employeeName day.date "Ordinary Hours" hours day.notes]
    else rows
  let km := day.kilometers.getD 0
  if 0 < km then
    rows ++ [csvRow employeeName day.date "Kilometers" km (jsNumToString km ++ " km")]
  else rows

/-- The row list built by the loop of `generateXeroCSV`: start from the
header, then run the loop body over the days in order. -/
def xeroRows (employeeName : String) (days : List DayEntry) : List String :=
  days.foldl (xeroPush employeeName) [csvHeader]

/-- The function `generateXeroCSV` from xero.ts: `rows.join("\n")`. -/
def generateXeroCSV (employeeName : String) (days : List DayEntry) : String :=
  String.intercalate "\n" (xeroRows employeeName days)

/-! ## Extraction payload (lib/types `AIExtractionResult`)

The payload reaches `handleExtracted` as `data as AIExtractionResult`, an
unchecked cast of untrusted JSON, and the handler guards every access with
optional chaining; the top-level blocks and the lists are therefore
modelled as `Option`.  The `validation` and `source` blocks are never read
by the handler and are omitted. -/

/-- The `work` block of one payload day. -/
structure AIWork where
  startTime : Option (Nat × Nat)
  endTime : Option (Nat × Nat)
  totalHours : Option ℚ
  breakMinutes : Option ℚ
  kilometers : Option ℚ
deriving DecidableEq

/-- The `confidence` block of one payload day. -/
structure AIConfidence where
  overall : ℚ
  fields : List (String × Option ℚ)
deriving DecidableEq

/-- One payload day (`AIExtractionDay`). -/
structure AIDay where
  date : Int
  dayOfWeek : String
  work : AIWork
  notes : Option String
  confidence : AIConfidence
deriving DecidableEq

/-- The payload `employee` block. -/
structure AIEmployee where
  fullName : String
  employeeId : Option String
  email : Option String
deriving DecidableEq

/-- The payload `period` block. -/
structure AIPeriod where
  weekStartDate : String
  weekEndDate : String
deriving DecidableEq

/-- The extraction payload as consumed by `handleExtracted`. -/
structure AIExtractionResult where
  employee : Option AIEmployee
  period : Option AIPeriod
  days : Option (List AIDay)
  warnings : Option (List String)
deriving DecidableEq

/-! ## Extraction Reconciler (src/src/app/page.tsx `handleExtracted`) -/

/-- The per-day mapping of page.tsx lines 45 to 63: each payload day maps
1:1 to a `DayEntry`.  In the source every field is re-encoded as a string
(`aiDay.work.startTime || ""`, `aiDay.work.totalHours != null ?
String(aiDay.work.totalHours) : ""`, `aiDay.notes || ""`); under the
parse-result modelling of the string fields this is the identity on each
optional field (`String(x)` parses back to `x`). -/
def mapAIDay (aiDay : AIDay) : DayEntry :=
  { date := aiDay.date
    dayOfWeek := aiDay.dayOfWeek
    startTime := aiDay.work.startTime
    endTime := aiDay.work.endTime
    totalHours := aiDay.work.totalHours
    breakMinutes := aiDay.work.breakMinutes
    kilometers := aiDay.work.kilometers
    notes := aiDay.notes.getD "" }

/-- JS object assignment `confMap[key] = v`: replace the value if the key
is present, otherwise append the new key in insertion order. -/
def upsertConf (m : List (Int × List (String × Option ℚ))) (k : Int)
    (v : List (String × Option ℚ)) : List (Int × List (String × Option ℚ)) :=
  if m.any (fun p => p.1 = k) then m.map (fun p => if p.1 = k then (k, v) else p)
  else m ++ [(k, v)]

/-- page.tsx lines 67 to 70: `result.days.forEach((aiDay) => { confMap[aiDay.date] = aiDay.confidence.fields })`. -/
def buildConfMap (l : List AIDay) : List (Int × List (String × Option ℚ)) :=
  l.foldl (fun m aiDay => upsertConf m aiDay.date aiDay.confidence.fields) []

/-- The React state of `Home` (page.tsx lines 12 to 22) that
`handleExtracted` reads and writes. -/
structure AppState where
  email : String
  employeeName : String
  weekStart : String
  days : List DayEntry
  confidences : List (Int × List (String × Option ℚ))
  warnings : List String
  showUpload : Bool
deriving DecidableEq

/-- page.tsx lines 36 to 41: fill employee info if returned.  Both guards
read the pre-call closure values `employeeName` and `email`, so both
conditions test the fields of the incoming state `s`. -/
def applyEmployee (result : AIExtractionResult) (s : AppState) : AppState :=
  match result.employee with
  | none => s
  | some e =>
      let s1 := if e.fullName ≠ "" ∧ s.employeeName = "" then
          { s with employeeName := e.fullName } else s
      match e.email with
      | none => s1
      | some em => if em ≠ "" ∧ s.email = "" then { s1 with email := em } else s1

/-- page.tsx lines 44 to 72: `if (result.days && result.days.length > 0)`
replace the day list with the mapped payload days and rebuild the
confidence map. -/
def applyDays (result : AIExtractionResult) (s : AppState) : AppState :=
  match result.days with
  | none => s
  | some l =>
      if 0 < l.length then
        { s with days := l.map mapAIDay, confidences := buildConfMap l }
      else s

/-- page.tsx lines 74 to 76: `if (result.warnings?.length) setWarnings(result.warnings)`. -/
def applyWarnings (result : AIExtractionResult) (s : AppState) : AppState :=
  match result.warnings with
  | none => s
  | some w => if 0 < w.length then { s with warnings := w } else s

/-- page.tsx lines 79 to 81: `if (result.period?.weekStartDate) setWeekStart(result.period.weekStartDate)`. -/
def applyPeriod (result : AIExtractionResult) (s : AppState) : AppState :=
  match result.period with
  | none => s
  | some p => if p.weekStartDate ≠ "" then { s with weekStart := p.weekStartDate } else s

/-- The callback `handleExtracted` (page.tsx lines 31 to 86): the four update blocks in
source order, then `setShowUpload(false)`. -/
def handleExtracted (result : AIExtractionResult) (s : AppState) : AppState :=
  { applyPeriod result (applyWarnings result (applyDays result (applyEmployee result s))) with
      showUpload := false }

/-! ## Spec-side definitions (written from the wording of the claims) -/

/-- The fallback of the Hours Derivation rule as the spec words it:
`(endMinutes - startMinutes)/60 - breakMinutes/60` when both times are
present, else `0`. -/
def specFallbackHours (day : DayEntry) : ℚ :=
  match day.startTime, day.endTime with
  | some s, some e =>
      ((60 * e.1 + e.2 : ℚ) - (60 * s.1 + s.2 : ℚ)) / 60 - (day.breakMinutes.getD 0) / 60
  | _, _ => 0

/-- Claim C1 exactly as stated: the total takes precedence when it parses
to a value greater than 0; otherwise the start/end fallback applies; an
unparseable field counts as 0. -/
def specHoursClaimed (day : DayEntry) : ℚ :=
  match day.totalHours with
  | some t => if 0 < t then t else specFallbackHours day
  | none => specFallbackHours day

/-- Claim C1 as amended: the total takes precedence whenever it parses to
any nonzero value (negative values included); only a zero, absent or
unparseable total falls through to the start/end fallback. -/
def specHoursAmended (day : DayEntry) : ℚ :=
  match day.totalHours with
  | some t => if t ≠ 0 then t else specFallbackHours day
  | none => specFallbackHours day

/-- The CSV rows one day contributes, as the spec words it: one
"Ordinary Hours" row if and only if the derived hours are positive, then
one "Kilometers" row if and only if the kilometers are positive, the hours
row first. -/
def specDayRows (employeeName : String) (day : DayEntry) : List String :=
  (if 0 < deriveHours day then
      [csvRow employeeName day.date "Ordinary Hours" (deriveHours day) day.notes]
    else []) ++
  (if 0 < day.kilometers.getD 0 then
      [csvRow employeeName day.date "Kilometers" (day.kilometers.getD 0)
        (jsNumToString (day.kilometers.getD 0) ++ " km")]
    else [])

/-! ## Concrete fixtures -/

/-- An empty application state (blank form, no days). -/
def blankState : AppState :=
  { email := ""
    employeeName := ""
    weekStart := "2024-01-08"
    days := []
    confidences := []
    warnings := []
    showUpload := true }

/-- The single day of the CSV Exporter scenario:
`{date:"2024-01-08", totalHours:"8", kilometers:"15"}`. -/
def janeDay : DayEntry :=
  { date := dayFromCivil 2024 1 8
    dayOfWeek := "MON"
    startTime := none
    endTime := none
    totalHours := some 8
    breakMinutes := none
    kilometers := some 15
    notes := "" }

/-- A day whose `totalHours` string parses to the negative value `-1`
while a start/end pair is also present. -/
def negTotalDay : DayEntry :=
  { date := dayFromCivil 2024 1 8
    dayOfWeek := "MON"
    startTime := some (9, 0)
    endTime := some (17, 0)
    totalHours := some (-1)
    breakMinutes := none
    kilometers := none
    notes := "" }

/-- A day with `startTime="09:00", endTime="17:30", breakMinutes="30"` and no total. -/
def exStartEnd : DayEntry :=
  { date := dayFromCivil 2024 1 8
    dayOfWeek := "MON"
    startTime := some (9, 0)
    endTime := some (17, 30)
    totalHours := none
    breakMinutes := some 30
    kilometers := none
    notes := "" }

/-- A day with `totalHours="7.5"` and a start/end pair also present. -/
def exTotal : DayEntry :=
  { date := dayFromCivil 2024 1 8
    dayOfWeek := "MON"
    startTime := some (9, 0)
    endTime := some (17, 0)
    totalHours := some (15 / 2)
    breakMinutes := some 30
    kilometers := none
    notes := "" }

/-- A payload day with a worked-hours signal (a total) and no break value. -/
def aiDayNoBreak : AIDay :=
  { date := dayFromCivil 2024 1 8
    dayOfWeek := "MON"
    work :=
      { startTime := none
        endTime := none
        totalHours := some 8
        breakMinutes := none
        kilometers := none }
    notes := none
    confidence := { overall := 1, fields := [] } }

/-- A payload carrying only `aiDayNoBreak`. -/
def payloadNoBreak : AIExtractionResult :=
  { employee := none, period := none, days := some [aiDayNoBreak], warnings := none }

/-- A payload day stating weekday `FRI` with the numeric date 2025-02-06,
which falls on a Thursday (the example of the prompt). -/
def aiDayFri : AIDay :=
  { date := dayFromCivil 2025 2 6
    dayOfWeek := "FRI"
    work :=
      { startTime := some (8, 0)
        endTime := some (16, 0)
        totalHours := none
        breakMinutes := some 30
        kilometers := none }
    notes := none
    confidence := { overall := 1, fields := [] } }

/-- A payload carrying only `aiDayFri`. -/
def payloadFri : AIExtractionResult :=
  { employee := none, period := none, days := some [aiDayFri], warnings := none }

/-- A well-formed payload day used for full-replace scenarios. -/
def aiDayMon : AIDay :=
  { date := dayFromCivil 2024 1 8
    dayOfWeek := "MON"
    work :=
      { startTime := some (9, 0)
        endTime := some (17, 30)
        totalHours := none
        breakMinutes := some 30
        kilometers := none }
    notes := none
    confidence := { overall := 1, fields := [("startTime", some 1)] } }

/-- A state holding a pre-existing 5-entry WorkPeriod. -/
def fiveDayState : AppState :=
  { blankState with days := generateWeekDays (dayFromCivil 2024 1 8) }

/-- A malformed payload: `{days: []}` (and an empty warnings list). -/
def emptyDaysPayload : AIExtractionResult :=
  { employee := none, period := none, days := some [], warnings := some [] }

/-- A malformed payload with no `days` collection at all. -/
def noneDaysPayload : AIExtractionResult :=
  { employee := none, period := none, days := none, warnings := none }

/-- A successful full-replace payload with zero warnings. -/
def fullReplacePayload : AIExtractionResult :=
  { employee := none, period := none, days := some [aiDayMon], warnings := some [] }

/-- A state with user-entered identity values. -/
def filledState : AppState :=
  { blankState with employeeName := "Jane Doe", email := "jane@example.com" }

/-- A payload trying to supply different identity values. -/
def overwritePayload : AIExtractionResult :=
  { employee := some { fullName := "Someone Else", employeeId := none, email := some "other@example.com" }
    period := none
    days := none
    warnings := none }

/-- A state still displaying a warning from an earlier upload. -/
def staleState : AppState :=
  { blankState with warnings := ["page 2 unreadable"] }

/-! ## Helper lemmas -/

theorem applyEmployee_days (r : AIExtractionResult) (s : AppState) :
    (applyEmployee r s).days = s.days := by
  unfold applyEmployee
  split
  · rfl
  · split <;> dsimp only <;> split <;> first | rfl | (split_ifs <;> rfl)

theorem applyEmployee_warnings (r : AIExtractionResult) (s : AppState) :
    (applyEmployee r s).warnings = s.warnings := by
  unfold applyEmployee
  split
  · rfl
  · split <;> dsimp only <;> split <;> first | rfl | (split_ifs <;> rfl)

theorem applyDays_employeeName (r : AIExtractionResult) (s : AppState) :
    (applyDays r s).employeeName = s.employeeName := by
  unfold applyDays
  rcases r.days with _ | l
  · rfl
  · dsimp only
    split_ifs <;> rfl

theorem applyDays_email (r : AIExtractionResult) (s : AppState) :
    (applyDays r s).email = s.email := by
  unfold applyDays
  rcases r.days with _ | l
  · rfl
  · dsimp only
    split_ifs <;> rfl

theorem applyDays_warnings (r : AIExtractionResult) (s : AppState) :
    (applyDays r s).warnings = s.warnings := by
  unfold applyDays
  rcases r.days with _ | l
  · rfl
  · dsimp only
    split_ifs <;> rfl

theorem applyWarnings_days (r : AIExtractionResult) (s : AppState) :
    (applyWarnings r s).days = s.days := by
  unfold applyWarnings
  rcases r.warnings with _ | w
  · rfl
  · dsimp only
    split_ifs <;> rfl

theorem applyWarnings_employeeName (r : AIExtractionResult) (s : AppState) :
    (applyWarnings r s).employeeName = s.employeeName := by
  unfold applyWarnings
  rcases r.warnings with _ | w
  · rfl
  · dsimp only
    split_ifs <;> rfl

theorem applyWarnings_email (r : AIExtractionResult) (s : AppState) :
    (applyWarnings r s).email = s.email := by
  unfold applyWarnings
  rcases r.warnings with _ | w
  · rfl
  · dsimp only
    split_ifs <;> rfl

theorem applyPeriod_days (r : AIExtractionResult) (s : AppState) :
    (applyPeriod r s).days = s.days := by
  unfold applyPeriod
  rcases r.period with _ | p
  · rfl
  · dsimp only
    split_ifs <;> rfl

theorem applyPeriod_warnings (r : AIExtractionResult) (s : AppState) :
    (applyPeriod r s).warnings = s.warnings := by
  unfold applyPeriod
  rcases r.period with _ | p
  · rfl
  · dsimp only
    split_ifs <;> rfl

theorem applyPeriod_employeeName (r : AIExtractionResult) (s : AppState) :
    (applyPeriod r s).employeeName = s.employeeName := by
  unfold applyPeriod
  rcases r.period with _ | p
  · rfl
  · dsimp only
    split_ifs <;> rfl

theorem applyPeriod_email (r : AIExtractionResult) (s : AppState) :
    (applyPeriod r s).email = s.email := by
  unfold applyPeriod
  rcases r.period with _ | p
  · rfl
  · dsimp only
    split_ifs <;> rfl

theorem handleExtracted_days (r : AIExtractionResult) (s : AppState) :
    (handleExtracted r s).days = (applyDays r (applyEmployee r s)).days := by
  unfold handleExtracted
  rw [show ({ applyPeriod r (applyWarnings r (applyDays r (applyEmployee r s))) with
      showUpload := false } : AppState).days =
      (applyPeriod r (applyWarnings r (applyDays r (applyEmployee r s)))).days from rfl,
    applyPeriod_days, applyWarnings_days]

theorem handleExtracted_warnings (r : AIExtractionResult) (s : AppState) :
    (handleExtracted r s).warnings = (applyWarnings r (applyDays r (applyEmployee r s))).warnings := by
  unfold handleExtracted
  rw [show ({ applyPeriod r (applyWarnings r (applyDays r (applyEmployee r s))) with
      showUpload := false } : AppState).warnings =
      (applyPeriod r (applyWarnings r (applyDays r (applyEmployee r s)))).warnings from rfl,
    applyPeriod_warnings]

theorem JSDate.eq_of_fields (a b : JSDate) (h1 : a.days = b.days) (h2 : a.ms = b.ms) :
    a = b := by
  cases a
  cases b
  cases h1
  cases h2
  rfl

theorem weekday_getMonday (D : JSDate) : (getMonday D).getDay = 1 := by
  unfold getMonday JSDate.getDay weekday
  dsimp only
  split <;> omega

theorem getDayName_of_weekday_one (n : Int) (h : weekday n = 1) : getDayName n = "MON" := by
  unfold getDayName
  rw [h]
  rfl

/-! ## Claim theorems -/

/-- Claim C7: for every date D, `weekdayCode(mondayOf(D))` is Monday,
`mondayOf` is idempotent, the result is normalized to midnight, and a
Sunday maps to the Monday of the previous week (six days earlier). -/
theorem getMonday_algebra :
    ∀ D : JSDate,
      (getMonday D).getDay = 1 ∧
      getDayName (getMonday D).days = "MON" ∧
      getMonday (getMonday D) = getMonday D ∧
      (getMonday D).ms = 0 ∧
      (D.getDay = 0 → (getMonday D).days = D.days - 6) := by
  intro D
  refine ⟨weekday_getMonday D, getDayName_of_weekday_one _ (weekday_getMonday D), ?_, rfl, ?_⟩
  · apply JSDate.eq_of_fields
    · simp only [getMonday, JSDate.getDay, weekday]
      split_ifs <;> omega
    · rfl
  · intro h0
    unfold getMonday
    rw [h0]
    dsimp only
    split_ifs <;> omega

/-- Witness for C7 at the concrete Sunday 1970-01-04, 00:00:00.500. -/
theorem getMonday_algebra_witness :
    JSDate.getDay ⟨3, 500⟩ = 0 ∧ (getMonday ⟨3, 500⟩).days = (3 : Int) - 6 :=
  ⟨by decide, (getMonday_algebra ⟨3, 500⟩).2.2.2.2 (by decide)⟩

/-- Claim C6 as amended: both generator variants produce chronologically
increasing, unique dates; the part_000 variant always has
`dayOfWeek = weekdayCode(date)`, while the part_001 variant takes its
labels from the fixed list MON..FRI and matches `weekdayCode(date)` only
when the start date falls on a Monday. -/
theorem generateWeekDays_invariants :
    ∀ start : Int,
      ((generateWeekDays start).map DayEntry.date).Pairwise (· < ·) ∧
      ((generateWeekDays start).map DayEntry.date).Nodup ∧
      ((generateWeekDaysFixed start).map DayEntry.date).Pairwise (· < ·) ∧
      ((generateWeekDaysFixed start).map DayEntry.date).Nodup ∧
      (∀ e ∈ generateWeekDays start, e.dayOfWeek = getDayName e.date) ∧
      (weekday start = 1 →
        ∀ e ∈ generateWeekDaysFixed start, e.dayOfWeek = getDayName e.date) := by
  intro start
  have hr : List.range 5 = [0, 1, 2, 3, 4] := rfl
  have he : DAY_NAMES.enum = [(0, "MON"), (1, "TUE"), (2, "WED"), (3, "THU"), (4, "FRI")] := rfl
  refine ⟨?_, ?_, ?_, ?_, ?_, ?_⟩
  · simp [generateWeekDays, hr, List.pairwise_cons]
  · simp [generateWeekDays, hr, List.Nodup, List.pairwise_cons]
  · simp [generateWeekDaysFixed, he, List.pairwise_cons]
  · simp [generateWeekDaysFixed, he, List.Nodup, List.pairwise_cons]
  · simp [generateWeekDays, hr]
  · intro hmon e hmem
    have h0 : getDayName (start + 0) = "MON" := by
      unfold getDayName
      rw [show weekday (start + 0) = 1 by unfold weekday at hmon ⊢; omega]
      try rfl
    have h1 : getDayName (start + 1) = "TUE" := by
      unfold getDayName
      rw [show weekday (start + 1) = 2 by unfold weekday at hmon ⊢; omega]
      try rfl
    have h2 : getDayName (start + 2) = "WED" := by
      unfold getDayName
      rw [show weekday (start + 2) = 3 by unfold weekday at hmon ⊢; omega]
      try rfl
    have h3 : getDayName (start + 3) = "THU" := by
      unfold getDayName
      rw [show weekday (start + 3) = 4 by unfold weekday at hmon ⊢; omega]
      try rfl
    have h4 : getDayName (start + 4) = "FRI" := by
      unfold getDayName
      rw [show weekday (start + 4) = 5 by unfold weekday at hmon ⊢; omega]
      try rfl
    simp [generateWeekDaysFixed, he] at hmem
    rcases hmem with h | h | h | h | h <;> subst h <;>
      simp_all [h0, h1, h2, h3, h4]

/-- Witness for C6 at the concrete Monday 2024-01-08: the fixed-label
variant does satisfy the weekday match when started on a Monday. -/
theorem generateWeekDays_invariants_witness :
    weekday (dayFromCivil 2024 1 8) = 1 ∧
    (∀ e ∈ generateWeekDaysFixed (dayFromCivil 2024 1 8),
      e.dayOfWeek = getDayName e.date) :=
  ⟨by decide,
    (generateWeekDays_invariants (dayFromCivil 2024 1 8)).2.2.2.2.2 (by decide)⟩

/-- Counterexample for C6 as stated: started on Tuesday 2024-01-09, the
part_001 generator labels every entry with a weekday one short of the
actual weekday of its date, so `dayOfWeek` never matches
`weekdayCode(date)`. -/
theorem generateWeekDaysFixed_label_cex :
    weekday (dayFromCivil 2024 1 9) = 2 ∧
    (generateWeekDaysFixed (dayFromCivil 2024 1 9)).map
        (fun e => (e.dayOfWeek, getDayName e.date)) =
      [("MON", "TUE"), ("TUE", "WED"), ("WED", "THU"), ("THU", "FRI"), ("FRI", "SAT")] ∧
    ("MON" : String) ≠ "TUE" := by
  refine ⟨by decide, by decide, by decide⟩

theorem deriveHours_eq_amended (day : DayEntry) : deriveHours day = specHoursAmended day := by
  unfold deriveHours specHoursAmended specFallbackHours
  rcases day.totalHours with _ | t <;>
    rcases day.startTime with _ | s <;>
    rcases day.endTime with _ | e <;>
    dsimp only [Option.getD] <;>
    split_ifs <;>
    first
      | rfl
      | tauto
      | ring

/-- Claim C1 counterexample: a `totalHours` string parsing to the negative
value `-1` takes precedence in the code (`parseFloat(...) || 0` is nonzero,
so the `!hours` guard fails), while the claim as stated sends every
non-positive total to the start/end fallback, which here yields 8. -/
theorem deriveHours_claim_cex :
    negTotalDay.totalHours = some (-1) ∧
    negTotalDay.startTime = some (9, 0) ∧ negTotalDay.endTime = some (17, 0) ∧
    specHoursClaimed negTotalDay = 8 ∧ deriveHours negTotalDay = -1 ∧
    deriveHours negTotalDay ≠ specHoursClaimed negTotalDay := by
  have h1 : specHoursClaimed negTotalDay = 8 := by
    unfold specHoursClaimed specFallbackHours negTotalDay
    norm_num
  have h2 : deriveHours negTotalDay = -1 := by
    unfold deriveHours negTotalDay
    norm_num
  refine ⟨rfl, rfl, rfl, h1, h2, ?_⟩
  rw [h1, h2]
  norm_num

/-- Claim C1 as amended: the derived hours equal the parsed `totalHours`
whenever it is nonzero (negative values included); when the total is
absent, unparseable or zero, the start/end/break fallback applies when
both times are present and the result is 0 otherwise.  In particular
`09:00`-`17:30` with a 30-minute break derives 8, and `totalHours="7.5"`
derives 7.5 with the total taking precedence over present start/end. -/
theorem deriveHours_amended_ok :
    (∀ day : DayEntry, deriveHours day = specHoursAmended day) ∧
    deriveHours exStartEnd = 8 ∧ deriveHours exTotal = 15 / 2 := by
  refine ⟨deriveHours_eq_amended, ?_, ?_⟩
  · unfold deriveHours exStartEnd
    norm_num
  · unfold deriveHours exTotal
    norm_num

theorem xeroPush_eq (employeeName : String) (rows : List String) (day : DayEntry) :
    xeroPush employeeName rows day = rows ++ specDayRows employeeName day := by
  unfold xeroPush specDayRows
  dsimp only
  split_ifs <;> simp_all [List.append_assoc]

theorem xeroRows_loop (employeeName : String) (days : List DayEntry) :
    ∀ acc : List String,
      days.foldl (xeroPush employeeName) acc = acc ++ days.flatMap (specDayRows employeeName) := by
  induction days with
  | nil => intro acc; simp
  | cons d tl ih =>
      intro acc
      simp only [List.foldl_cons, List.flatMap_cons, xeroPush_eq, ih, List.append_assoc]

theorem xeroRows_eq (employeeName : String) (days : List DayEntry) :
    xeroRows employeeName days = csvHeader :: days.flatMap (specDayRows employeeName) := by
  unfold xeroRows
  rw [xeroRows_loop]
  rfl

theorem toFixed2_eight : toFixed2 8 = "8.00" := by
  have h : ((8 : ℚ) * 100 + 1 / 2).floor = 800 := by
    show ⌊(8 : ℚ) * 100 + 1 / 2⌋ = 800
    rw [Int.floor_eq_iff]
    norm_num
  simp only [toFixed2, h]
  rfl

theorem toFixed2_fifteen : toFixed2 15 = "15.00" := by
  have h : ((15 : ℚ) * 100 + 1 / 2).floor = 1500 := by
    show ⌊(15 : ℚ) * 100 + 1 / 2⌋ = 1500
    rw [Int.floor_eq_iff]
    norm_num
  simp only [toFixed2, h]
  rfl

theorem decimalLen_fifteen : decimalLen 15 = some 0 := by
  unfold decimalLen
  rw [List.range_succ_eq_map]
  apply List.find?_cons_of_pos
  norm_num

theorem jsNumToString_fifteen : jsNumToString 15 = "15" := by
  have habs : |(15 : ℚ)| = 15 := by norm_num
  unfold jsNumToString nonnegDecString
  rw [habs, decimalLen_fifteen]
  rfl

theorem deriveHours_jane : deriveHours janeDay = 8 := rfl

theorem specDayRows_jane :
    specDayRows "Jane Doe" janeDay =
      [csvRow "Jane Doe" janeDay.date "Ordinary Hours" 8 "",
        csvRow "Jane Doe" janeDay.date "Kilometers" 15 (jsNumToString 15 ++ " km")] := by
  unfold specDayRows
  rw [deriveHours_jane]
  norm_num [janeDay]

theorem janeRows_eq :
    xeroRows "Jane Doe" [janeDay] =
      [csvHeader, csvRow "Jane Doe" janeDay.date "Ordinary Hours" 8 "",
        csvRow "Jane Doe" janeDay.date "Kilometers" 15 (jsNumToString 15 ++ " km")] := by
  rw [xeroRows_eq]
  simp only [List.flatMap_cons, List.flatMap_nil, List.append_nil]
  rw [specDayRows_jane]

theorem csvRow_jane_hours :
    csvRow "Jane Doe" janeDay.date "Ordinary Hours" 8 "" =
      "\"Jane Doe\",\"2024-01-08\",\"Ordinary Hours\",\"8.00\",\"\"" := by
  unfold csvRow
  rw [toFixed2_eight]
  rfl

theorem csvRow_jane_km :
    csvRow "Jane Doe" janeDay.date "Kilometers" 15 (jsNumToString 15 ++ " km") =
      "\"Jane Doe\",\"2024-01-08\",\"Kilometers\",\"15.00\",\"15 km\"" := by
  unfold csvRow
  rw [toFixed2_fifteen, jsNumToString_fifteen]
  rfl

/-- Claim C5: the exported CSV is the fixed header followed, for each day
in WorkPeriod order, by one "Ordinary Hours" row if and only if the
derived hours are positive and then one "Kilometers" row if and only if
the kilometers are positive (hours row first, zero days contribute no
rows, all fields quote-wrapped and comma-joined, Units in two decimals);
on the Jane Doe example day the output is exactly the three specified
lines. -/
theorem generateXeroCSV_spec :
    (∀ (employeeName : String) (days : List DayEntry),
      xeroRows employeeName days = csvHeader :: days.flatMap (specDayRows employeeName)) ∧
    generateXeroCSV "Jane Doe" [janeDay] =
      "Employee Name,Date,Earnings Rate,Units,Notes\n\"Jane Doe\",\"2024-01-08\",\"Ordinary Hours\",\"8.00\",\"\"\n\"Jane Doe\",\"2024-01-08\",\"Kilometers\",\"15.00\",\"15 km\"" := by
  refine ⟨xeroRows_eq, ?_⟩
  unfold generateXeroCSV
  rw [janeRows_eq, csvRow_jane_hours, csvRow_jane_km]
  rfl

/-- Claim C10: every non-header row of the exported CSV carries a Units
value that is strictly positive: a row is only ever pushed under a
`hours > 0` or `km > 0` guard, so no row with a non-positive Units value
(in particular no negative one) can appear even though the exporter does
not clamp. -/
theorem csv_units_positive :
    ∀ (employeeName : String) (days : List DayEntry) (row : String),
      row ∈ xeroRows employeeName days → row ≠ csvHeader →
      ∃ u : ℚ, 0 < u ∧ ∃ dt rate note, row = csvRow employeeName dt rate u note := by
  intro employeeName days row hmem hne
  rw [xeroRows_eq] at hmem
  rcases List.mem_cons.mp hmem with h | h
  · exact absurd h hne
  · rcases List.mem_flatMap.mp h with ⟨d, hd, hrow⟩
    unfold specDayRows at hrow
    rcases List.mem_append.mp hrow with h2 | h2
    · by_cases hh : 0 < deriveHours d
      · rw [if_pos hh] at h2
        have h3 := List.mem_singleton.mp h2
        subst h3
        exact ⟨deriveHours d, hh, d.date, "Ordinary Hours", d.notes, rfl⟩
      · rw [if_neg hh] at h2
        exact absurd h2 (List.not_mem_nil _)
    · by_cases hk : 0 < d.kilometers.getD 0
      · rw [if_pos hk] at h2
        have h3 := List.mem_singleton.mp h2
        subst h3
        exact ⟨d.kilometers.getD 0, hk, d.date, "Kilometers",
          jsNumToString (d.kilometers.getD 0) ++ " km", rfl⟩
      · rw [if_neg hk] at h2
        exact absurd h2 (List.not_mem_nil _)

/-- Witness for C10 on the Jane Doe example row. -/
theorem csv_units_positive_witness :
    (csvRow "Jane Doe" janeDay.date "Ordinary Hours" 8 "" ∈ xeroRows "Jane Doe" [janeDay]) ∧
    csvRow "Jane Doe" janeDay.date "Ordinary Hours" 8 "" ≠ csvHeader ∧
    ∃ u : ℚ, 0 < u ∧ ∃ dt rate note,
      csvRow "Jane Doe" janeDay.date "Ordinary Hours" 8 "" = csvRow "Jane Doe" dt rate u note := by
  have hmem : csvRow "Jane Doe" janeDay.date "Ordinary Hours" 8 "" ∈ xeroRows "Jane Doe" [janeDay] := by
    rw [janeRows_eq]
    simp
  have hne : csvRow "Jane Doe" janeDay.date "Ordinary Hours" 8 "" ≠ csvHeader := by
    rw [csvRow_jane_hours]
    decide
  exact ⟨hmem, hne, csv_units_positive "Jane Doe" [janeDay] _ hmem hne⟩

theorem applyEmployee_employeeName_of_ne (r : AIExtractionResult) (s : AppState)
    (h : s.employeeName ≠ "") : (applyEmployee r s).employeeName = s.employeeName := by
  unfold applyEmployee
  split
  · rfl
  · split_ifs with h1
    · exact absurd h1.2 h
    · dsimp only
      split
      · rfl
      · split_ifs <;> rfl

theorem applyEmployee_email_of_ne (r : AIExtractionResult) (s : AppState)
    (h : s.email ≠ "") : (applyEmployee r s).email = s.email := by
  unfold applyEmployee
  split
  · rfl
  · split_ifs with h1 <;> dsimp only <;> split <;>
      first
        | rfl
        | (split_ifs with h2 <;> first | rfl | exact absurd h2.2 h)

theorem handleExtracted_employeeName (r : AIExtractionResult) (s : AppState) :
    (handleExtracted r s).employeeName = (applyEmployee r s).employeeName := by
  unfold handleExtracted
  rw [show ({ applyPeriod r (applyWarnings r (applyDays r (applyEmployee r s))) with
      showUpload := false } : AppState).employeeName =
      (applyPeriod r (applyWarnings r (applyDays r (applyEmployee r s)))).employeeName from rfl,
    applyPeriod_employeeName, applyWarnings_employeeName, applyDays_employeeName]

theorem handleExtracted_email (r : AIExtractionResult) (s : AppState) :
    (handleExtracted r s).email = (applyEmployee r s).email := by
  unfold handleExtracted
  rw [show ({ applyPeriod r (applyWarnings r (applyDays r (applyEmployee r s))) with
      showUpload := false } : AppState).email =
      (applyPeriod r (applyWarnings r (applyDays r (applyEmployee r s)))).email from rfl,
    applyPeriod_email, applyWarnings_email, applyDays_email]

/-- Claim C8: the Reconciler copies the employee full name only when the
local form value is empty, and the email only when the local email is
empty; user-entered identity values are never overwritten. -/
theorem identity_passthrough :
    ∀ (result : AIExtractionResult) (s : AppState),
      (s.employeeName ≠ "" → (handleExtracted result s).employeeName = s.employeeName) ∧
      (s.email ≠ "" → (handleExtracted result s).email = s.email) := by
  intro r s
  constructor
  · intro h
    rw [handleExtracted_employeeName, applyEmployee_employeeName_of_ne r s h]
  · intro h
    rw [handleExtracted_email, applyEmployee_email_of_ne r s h]

/-- Witness for C8: a payload with different identity values leaves the
user-entered name and email unchanged. -/
theorem identity_passthrough_witness :
    filledState.employeeName ≠ "" ∧ filledState.email ≠ "" ∧
    (handleExtracted overwritePayload filledState).employeeName = filledState.employeeName ∧
    (handleExtracted overwritePayload filledState).email = filledState.email :=
  ⟨by decide, by decide,
    (identity_passthrough overwritePayload filledState).1 (by decide),
    (identity_passthrough overwritePayload filledState).2 (by decide)⟩

/-- Claim C9: a payload with an empty or absent warnings list leaves the
warnings state unchanged, so warnings from an earlier upload survive a
later warning-free upload, even one that fully replaces the days. -/
theorem warnings_not_cleared :
    ∀ (result : AIExtractionResult) (s : AppState),
      result.warnings = none ∨ result.warnings = some [] →
      (handleExtracted result s).warnings = s.warnings := by
  intro r s h
  rw [handleExtracted_warnings]
  have hw : (applyWarnings r (applyDays r (applyEmployee r s))).warnings
      = (applyDays r (applyEmployee r s)).warnings := by
    unfold applyWarnings
    rcases h with h | h <;> rw [h]
    rfl
  rw [hw, applyDays_warnings, applyEmployee_warnings]

/-- Witness for C9: a zero-warning full-replace payload rewrites the days
but leaves a stale warning in place. -/
theorem warnings_not_cleared_witness :
    fullReplacePayload.warnings = some [] ∧
    (handleExtracted fullReplacePayload staleState).days ≠ staleState.days ∧
    (handleExtracted fullReplacePayload staleState).warnings = staleState.warnings :=
  ⟨rfl, by decide, warnings_not_cleared fullReplacePayload staleState (Or.inr rfl)⟩

/-- Claim C4 as amended: a payload whose days collection is missing or
empty leaves the day records unchanged (in particular a `{days: []}`
payload leaves a pre-existing 5-entry WorkPeriod untouched); however the
outcome is not reported: on an otherwise-empty malformed payload the
handler changes nothing but the upload-panel visibility, producing no
distinct signal. -/
theorem malformed_days_noop :
    (∀ (result : AIExtractionResult) (s : AppState),
      result.days = none ∨ result.days = some [] →
      (handleExtracted result s).days = s.days) ∧
    (handleExtracted emptyDaysPayload fiveDayState).days = fiveDayState.days ∧
    fiveDayState.days.length = 5 ∧
    handleExtracted emptyDaysPayload fiveDayState = { fiveDayState with showUpload := false } := by
  have key : ∀ (result : AIExtractionResult) (s : AppState),
      result.days = none ∨ result.days = some [] →
      (handleExtracted result s).days = s.days := by
    intro r s h
    rw [handleExtracted_days]
    have hd : (applyDays r (applyEmployee r s)).days = (applyEmployee r s).days := by
      unfold applyDays
      rcases h with h | h <;> rw [h]
      rfl
    rw [hd, applyEmployee_days]
  exact ⟨key, key _ _ (Or.inr rfl), by decide, by decide⟩

/-- Witness for C4 with a payload lacking the days collection entirely. -/
theorem malformed_days_noop_witness :
    noneDaysPayload.days = none ∧
    (handleExtracted noneDaysPayload fiveDayState).days = fiveDayState.days :=
  ⟨rfl, malformed_days_noop.1 noneDaysPayload fiveDayState (Or.inl rfl)⟩

/-- Counterexample for C4 as stated: the malformed `{days: []}` outcome is
not reported distinctly from a successful zero-warning full replace — the
warnings state after both is identical (and the malformed case changes
nothing but the upload-panel flag), even though the replace really did
rewrite the day records. -/
theorem malformed_days_report_cex :
    (handleExtracted emptyDaysPayload fiveDayState).warnings =
      (handleExtracted fullReplacePayload fiveDayState).warnings ∧
    (handleExtracted fullReplacePayload fiveDayState).days ≠ fiveDayState.days ∧
    handleExtracted emptyDaysPayload fiveDayState = { fiveDayState with showUpload := false } := by
  refine ⟨by decide, by decide, by decide⟩

/-- Claim C2 as amended: the Reconciler applies no break default of its
own: every payload day is mapped with its breakMinutes passed through
unchanged (a null break becomes the empty field, not 30), and a
well-formed payload replaces the days with exactly the mapped list.  The
30-minute default policy lives upstream, in the BREAKS section of the
extraction prompt. -/
theorem reconciler_break_passthrough :
    (∀ a : AIDay, (mapAIDay a).breakMinutes = a.work.breakMinutes) ∧
    (∀ (result : AIExtractionResult) (s : AppState) (l : List AIDay),
      result.days = some l → 0 < l.length →
      (handleExtracted result s).days = l.map mapAIDay) := by
  constructor
  · intro a
    rfl
  · intro r s l hl hlen
    rw [handleExtracted_days]
    unfold applyDays
    rw [hl]
    dsimp only
    rw [if_pos hlen]

/-- Witness for C2: the no-break payload day maps through with an empty
break field. -/
theorem reconciler_break_passthrough_witness :
    payloadNoBreak.days = some [aiDayNoBreak] ∧ 0 < [aiDayNoBreak].length ∧
    (handleExtracted payloadNoBreak blankState).days = [aiDayNoBreak].map mapAIDay :=
  ⟨rfl, by decide,
    reconciler_break_passthrough.2 payloadNoBreak blankState [aiDayNoBreak] rfl (by decide)⟩

/-- Counterexample for C2 as stated: a payload day with a worked-hours
signal (totalHours 8) and no break value produces a DayRecord whose break
field is empty, not 30. -/
theorem reconciler_break_default_cex :
    aiDayNoBreak.work.totalHours = some 8 ∧
    aiDayNoBreak.work.breakMinutes = none ∧
    (handleExtracted payloadNoBreak blankState).days.map DayEntry.breakMinutes = [none] ∧
    (handleExtracted payloadNoBreak blankState).days.map DayEntry.breakMinutes ≠ [some 30] := by
  refine ⟨rfl, rfl, by decide, by decide⟩

/-- Claim C3 as amended: the Reconciler passes both the date and the
day-of-week label of every payload day through unchanged and performs no
weekday reconciliation of its own; the weekday-authoritative date-shifting
policy lives upstream, in the DATE INTERPRETATION section of the
extraction prompt, so a conflicting payload yields a DayRecord whose
stored label differs from the weekday of its date. -/
theorem reconciler_date_passthrough :
    ∀ a : AIDay, (mapAIDay a).date = a.date ∧ (mapAIDay a).dayOfWeek = a.dayOfWeek :=
  fun _ => ⟨rfl, rfl⟩

/-- Counterexample for C3 as stated: the payload day labelled FRI with
numeric date 2025-02-06 (a Thursday) is stored with its date unshifted,
so `weekdayCode(date)` is THU, not the stated FRI. -/
theorem reconciler_weekday_cex :
    aiDayFri.dayOfWeek = "FRI" ∧
    getDayName aiDayFri.date = "THU" ∧
    (handleExtracted payloadFri blankState).days.map
        (fun d => (formatDate d.date, d.dayOfWeek, getDayName d.date)) =
      [("2025-02-06", "FRI", "THU")] ∧
    ("THU" : String) ≠ "FRI" := by
  refine ⟨rfl, by decide, by decide, by decide⟩

end Timesheet
